import Mathlib

/-!
Shallow embedding of the clinic management backend
(`src/server/server.js`, the alternative backend `src/unnamed/part_005`,
the standalone patient router `src/unnamed/part_001`, the standalone
medical-record router `src/src/routes/MedicalRecord.js`, the lightweight
auth middleware `src/src/middleaware/auth.js`, and the appointment form
handler `src/src/components/Appointments.tsx`).

Mongo documents become Lean structures; `ObjectId`s become `Nat`;
document fields that a `replaceOne` can drop are `Option` valued;
the JWT library is modelled by an oracle (`Token`) describing the
outcome of `jwt.verify`; each Express handler becomes a pure function
from the database state and the request data to a new state and an
HTTP-style result.
-/

namespace Clinic

/-- HTTP-level error: status code plus the French message the handlers send. -/
structure HttpError where
  status : Nat
  message : String
deriving Repr, DecidableEq

/-- Role enum of the user schema (`enum: ['admin', 'medecin']`). -/
inductive Role where
  | admin
  | medecin
deriving Repr, DecidableEq

/-- User document (`userSchema` in server.js). -/
structure User where
  id : Nat
  email : String
  password : String
  nom : String
  prenom : String
  role : Role
deriving Repr, DecidableEq

/-- Patient document (`patientSchema`). Demographic fields are `Option`
valued because `replaceOne` in the part_001 router can leave them absent. -/
structure Patient where
  id : Nat
  nom : Option String
  prenom : Option String
  dateNaissance : Option String
  telephone : Option String
  email : Option String
  doctor : Nat
deriving Repr, DecidableEq

/-- Appointment document (`appointmentSchema`). -/
structure Appointment where
  id : Nat
  patient : Nat
  date : Nat
  heure : String
  motif : String
  doctor : Nat
deriving Repr, DecidableEq

/-- Attachment subdocument of a medical record. -/
structure Attachment where
  filename : String
  originalName : String
  mimetype : String
  size : Nat
  uploadDate : Nat
deriving Repr, DecidableEq

/-- Medical record document (`medicalRecordSchema`). -/
structure MedicalRecord where
  id : Nat
  patientId : Nat
  doctor : Nat
  date : Nat
  diagnostic : String
  prescription : String
  notes : Option String
  attachments : List Attachment
deriving Repr, DecidableEq

/-- A file sitting in the `uploads/` directory: name and byte content. -/
structure StoredFile where
  name : String
  bytes : List Nat
deriving Repr, DecidableEq

/-- Whole persistent state: the four Mongo collections plus the uploads
directory (which is independent of the database). -/
structure DB where
  users : List User
  patients : List Patient
  appointments : List Appointment
  records : List MedicalRecord
  uploads : List StoredFile
deriving Repr, DecidableEq

/-- Outcome of extracting and `jwt.verify`-ing the bearer token of a
request: the header may be missing, the token malformed (bad shape or
signature), expired, or valid and carrying a `userId` claim. -/
inductive Token where
  | missing
  | malformed
  | expired
  | valid (userId : Nat)
deriving Repr, DecidableEq

/-- The 401 body both auth middlewares send. -/
def authFailMsg : String := "Veuillez vous authentifier."

/-- `auth` middleware of server.js (lines 108-121): any failure of header
extraction, of `jwt.verify`, or of the `User.findById` lookup yields 401;
otherwise the resolved user is attached to the request. -/
def auth (users : List User) (t : Token) : Except HttpError User :=
  match t with
  | .valid uid =>
      match users.find? (fun u => u.id == uid) with
      | some u => .ok u
      | none => .error ⟨401, authFailMsg⟩
  | _ => .error ⟨401, authFailMsg⟩

/-- `auth` middleware of `src/src/middleaware/auth.js`: it verifies the
token but performs no user lookup, setting `req.user = { id: decoded.userId }`
directly. -/
def authLight (t : Token) : Except HttpError Nat :=
  match t with
  | .valid uid => .ok uid
  | _ => .error ⟨401, authFailMsg⟩

/-- JavaScript truthiness of an optional string field of `req.body`
(`!email` is true when the field is absent or the empty string). -/
def truthy (s : Option String) : Bool :=
  match s with
  | none => false
  | some v => v ≠ ""

/-- The common 401 body of `POST /api/auth/login`. -/
def badCredMsg : String := "Email ou mot de passe incorrect"

/-- `POST /api/auth/login` in server.js (lines 132-166): missing email or
password gives 400; a lookup miss or a `!==` password mismatch both give
the same 401 body; success yields the user id the token is signed over. -/
def login (users : List User) (email password : Option String) :
    Except HttpError Nat :=
  if truthy email && truthy password then
    match users.find? (fun u => some u.email == email) with
    | none => .error ⟨401, badCredMsg⟩
    | some u =>
        if some u.password == password then .ok u.id
        else .error ⟨401, badCredMsg⟩
  else .error ⟨400, "Email et mot de passe requis"⟩

/-- Request body of the patient endpoints: every field of `req.body` may be
absent, and a client may even try to supply the `doctor` reference. -/
structure PatientBody where
  nom : Option String
  prenom : Option String
  dateNaissance : Option String
  telephone : Option String
  email : Option String
  doctor : Option Nat
deriving Repr, DecidableEq

/-- Request body of `POST /api/appointments`; again a hostile client may
supply a `doctor` field. -/
structure AppointmentBody where
  patient : Option Nat
  date : Option Nat
  heure : Option String
  motif : Option String
  doctor : Option Nat
deriving Repr, DecidableEq

/-- Text fields of a medical-record request body (the multipart part that
is not a file); `patientId` and `doctor` may be injected by the client. -/
structure RecordBody where
  date : Option Nat
  diagnostic : Option String
  prescription : Option String
  notes : Option String
  patientId : Option Nat
  doctor : Option Nat
deriving Repr, DecidableEq

/-- A file accepted by multer: generated storage name, original name,
mime type and size. -/
structure UploadedFile where
  filename : String
  originalname : String
  mimetype : String
  size : Nat
deriving Repr, DecidableEq

/-- The `req.files.map(file => ({...}))` attachment-metadata construction
shared by the medical-record POST and PUT handlers. -/
def toAttachment (now : Nat) (f : UploadedFile) : Attachment :=
  ⟨f.filename, f.originalname, f.mimetype, f.size, now⟩

/-- `GET /api/patients` (server.js lines 314-321):
`Patient.find({ doctor: req.user.id })`. -/
def listPatients (db : DB) (caller : Nat) : List Patient :=
  db.patients.filter (fun p => p.doctor == caller)

/-- Insertion step of the date-ascending sort used by
`Appointment.find(...).sort({ date: 1 })`. -/
def insertAsc (a : Appointment) : List Appointment → List Appointment
  | [] => [a]
  | b :: l => if a.date ≤ b.date then a :: b :: l else b :: insertAsc a l

/-- Date-ascending insertion sort for appointments. -/
def sortAsc : List Appointment → List Appointment
  | [] => []
  | a :: l => insertAsc a (sortAsc l)

/-- Insertion step of the date-descending sort used by
`MedicalRecord.find(...).sort({ date: -1 })`. -/
def insertDesc (r : MedicalRecord) : List MedicalRecord → List MedicalRecord
  | [] => [r]
  | b :: l => if b.date ≤ r.date then r :: b :: l else b :: insertDesc r l

/-- Date-descending insertion sort for medical records. -/
def sortDesc : List MedicalRecord → List MedicalRecord
  | [] => []
  | r :: l => insertDesc r (sortDesc l)

/-- `GET /api/appointments` (server.js lines 558-567): filter by
`doctor: req.user.id`, populate the `patient` reference, sort by date
ascending. -/
def listAppointments (db : DB) (caller : Nat) :
    List (Appointment × Option Patient) :=
  (sortAsc (db.appointments.filter (fun a => a.doctor == caller))).map
    (fun a => (a, db.patients.find? (fun p => p.id == a.patient)))

/-- `GET /api/medical-records/:patientId` (server.js lines 394-421):
404 unless a patient with that id is owned by the caller, then
`MedicalRecord.find({ patientId, doctor: req.user.id })` sorted by date
descending. -/
def listMedicalRecords (db : DB) (caller patientId : Nat) :
    Except HttpError (List MedicalRecord) :=
  match db.patients.find? (fun p => p.id == patientId && p.doctor == caller) with
  | none => .error ⟨404, "Patient non trouvé"⟩
  | some _ =>
      .ok (sortDesc (db.records.filter
        (fun r => r.patientId == patientId && r.doctor == caller)))

/-- `GET /:patientId` of the standalone medical-record router
(`src/src/routes/MedicalRecord.js` lines 8-16):
`MedicalRecord.find({ patientId: req.params.patientId })` sorted by date
descending — no `doctor` filter and no patient-ownership check at all. -/
def listMedicalRecordsRoute (db : DB) (patientId : Nat) : List MedicalRecord :=
  sortDesc (db.records.filter (fun r => r.patientId == patientId))

/-- `POST /api/patients` (server.js lines 323-334):
`new Patient({ ...req.body, doctor: req.user.id })` — the spread comes
first, so a supplied `doctor` is overwritten; the schema's `required`
validators make `save` fail (400) when a demographic field is absent. -/
def createPatient (caller newId : Nat) (b : PatientBody) :
    Except HttpError Patient :=
  match b.nom, b.prenom, b.dateNaissance, b.telephone, b.email with
  | some n, some pn, some dn, some tel, some em =>
      .ok ⟨newId, some n, some pn, some dn, some tel, some em, caller⟩
  | _, _, _, _, _ => .error ⟨400, "Erreur lors de la création du patient"⟩

/-- `POST /api/appointments` (server.js lines 569-582):
`new Appointment({ ...req.body, doctor: req.user.id })`; all schema fields
are `required`, and no time-of-day check happens on the server. -/
def createAppointment (caller newId : Nat) (b : AppointmentBody) :
    Except HttpError Appointment :=
  match b.patient, b.date, b.heure, b.motif with
  | some pt, some d, some h, some m => .ok ⟨newId, pt, d, h, m, caller⟩
  | _, _, _, _ => .error ⟨400, "Erreur lors de la création du rendez-vous"⟩

/-- `POST /api/medical-records/:patientId` (server.js lines 423-461):
ownership check on the patient, then
`new MedicalRecord({ ...req.body, patientId, doctor: req.user.id, attachments })`
— the forced keys come after the spread and win. -/
def createMedicalRecord (db : DB) (caller patientId newId now : Nat)
    (b : RecordBody) (files : List UploadedFile) :
    Except HttpError MedicalRecord :=
  match db.patients.find? (fun p => p.id == patientId && p.doctor == caller) with
  | none => .error ⟨404, "Patient non trouvé"⟩
  | some _ =>
      match b.date, b.diagnostic, b.prescription with
      | some d, some dg, some pre =>
          .ok ⟨newId, patientId, caller, d, dg, pre, b.notes,
               files.map (toAttachment now)⟩
      | _, _, _ => .error ⟨400, "Erreur lors de la création du dossier médical"⟩

/-- Mongo `$set` semantics on one optional field: a key present in the
update body overwrites, an absent key leaves the stored value. -/
def setField (new old : Option String) : Option String :=
  match new with
  | some v => some v
  | none => old

/-- Effect on one patient document of
`Patient.findByIdAndUpdate(id, { $set: req.body })` (server.js lines
353-360): present body keys overwrite, absent keys are untouched —
including `doctor`, which `$set: req.body` would overwrite if supplied. -/
def applySet (p : Patient) (b : PatientBody) : Patient :=
  { id := p.id
    nom := setField b.nom p.nom
    prenom := setField b.prenom p.prenom
    dateNaissance := setField b.dateNaissance p.dateNaissance
    telephone := setField b.telephone p.telephone
    email := setField b.email p.email
    doctor := b.doctor.getD p.doctor }

/-- Replacement document built by the part_001 router (lines 47-55):
`Patient.replaceOne({ _id: id }, { ...req.body, _id: id, doctor: req.user.id })`
— fields absent from the body are simply absent from the new document. -/
def applyReplace (id caller : Nat) (b : PatientBody) : Patient :=
  { id := id
    nom := b.nom
    prenom := b.prenom
    dateNaissance := b.dateNaissance
    telephone := b.telephone
    email := b.email
    doctor := caller }

/-- `PUT /api/patients/:id` in server.js (lines 336-367): 404 unless a
patient with that id is owned by the caller; then `findByIdAndUpdate`
(matched on `_id` alone) applies `$set: req.body` and returns the updated
document. -/
def updatePatient (db : DB) (caller id : Nat) (b : PatientBody) :
    DB × Except HttpError Patient :=
  match db.patients.find? (fun p => p.id == id && p.doctor == caller) with
  | none => (db, .error ⟨404, "Patient non trouvé"⟩)
  | some _ =>
      let ps := db.patients.map (fun p => if p.id == id then applySet p b else p)
      ({ db with patients := ps },
       match ps.find? (fun p => p.id == id) with
       | some u => .ok u
       | none => .error ⟨500, "Erreur lors de la modification du patient"⟩)

/-- `PUT /:id` of the part_001 patient router (lines 30-64): same
ownership check, then `replaceOne` on `_id` alone followed by `findById`
to return the replaced document. -/
def updatePatientReplace (db : DB) (caller id : Nat) (b : PatientBody) :
    DB × Except HttpError Patient :=
  match db.patients.find? (fun p => p.id == id && p.doctor == caller) with
  | none => (db, .error ⟨404, "Patient non trouvé"⟩)
  | some _ =>
      let ps := db.patients.map
        (fun p => if p.id == id then applyReplace id caller b else p)
      ({ db with patients := ps },
       match ps.find? (fun p => p.id == id) with
       | some u => .ok u
       | none => .error ⟨500, "Erreur lors de la modification du patient"⟩)

/-- `DELETE /api/patients/:id` (server.js lines 369-391): 404 unless a
patient with that id is owned by the caller, then
`Patient.deleteOne({ _id: id })` — nothing else is touched: no appointment,
medical record or uploaded file is deleted. -/
def deletePatient (db : DB) (caller id : Nat) : DB × Except HttpError Unit :=
  match db.patients.find? (fun p => p.id == id && p.doctor == caller) with
  | none => (db, .error ⟨404, "Patient non trouvé"⟩)
  | some _ =>
      ({ db with patients := db.patients.filter (fun p => !(p.id == id)) },
       .ok ())

/-- Effect on one record document of the medical-record
`findByIdAndUpdate(id, { ...req.body, attachments: [...existing, ...new] })`
(server.js lines 488-495): text keys present in the body overwrite, and
the attachment list is always the existing one with the new metadata
appended. -/
def applyRecordBody (r : MedicalRecord) (b : RecordBody)
    (newAtts : List Attachment) : MedicalRecord :=
  { id := r.id
    patientId := b.patientId.getD r.patientId
    doctor := b.doctor.getD r.doctor
    date := b.date.getD r.date
    diagnostic := (setField b.diagnostic (some r.diagnostic)).getD r.diagnostic
    prescription := (setField b.prescription (some r.prescription)).getD r.prescription
    notes := setField b.notes r.notes
    attachments := r.attachments ++ newAtts }

/-- `PUT /api/medical-records/:id` (server.js lines 463-502): 404 unless a
record with that id is owned by the caller; the update document spreads
`req.body` and then forces
`attachments: [...(record.attachments || []), ...newAttachments]`. -/
def updateMedicalRecord (db : DB) (caller id now : Nat) (b : RecordBody)
    (files : List UploadedFile) : DB × Except HttpError MedicalRecord :=
  match db.records.find? (fun r => r.id == id && r.doctor == caller) with
  | none => (db, .error ⟨404, "Dossier médical non trouvé"⟩)
  | some _ =>
      let rs := db.records.map (fun r =>
        if r.id == id then applyRecordBody r b (files.map (toAttachment now))
        else r)
      ({ db with records := rs },
       match rs.find? (fun r => r.id == id) with
       | some u => .ok u
       | none => .error ⟨500, "Erreur lors de la modification du dossier médical"⟩)

/-- Number of users with the admin role:
`User.countDocuments({ role: 'admin' })`. -/
def countAdmins (users : List User) : Nat :=
  users.countP (fun u => u.role == Role.admin)

/-- `DELETE /api/users/:id` in server.js (lines 256-283): 404 when the id
resolves to no user; when the target is an admin and
`countDocuments({ role: 'admin' }) <= 1` the handler answers 400
("Impossible de supprimer le dernier administrateur") without deleting;
otherwise `findByIdAndDelete`. -/
def deleteUser (users : List User) (id : Nat) :
    List User × Except HttpError Unit :=
  match users.find? (fun u => u.id == id) with
  | none => (users, .error ⟨404, "Utilisateur non trouvé"⟩)
  | some u =>
      if u.role == Role.admin && countAdmins users ≤ 1 then
        (users, .error ⟨400, "Impossible de supprimer le dernier administrateur"⟩)
      else
        (users.filter (fun v => !(v.id == id)), .ok ())

/-- `DELETE /api/users/:id` in the alternative backend
(`src/unnamed/part_005` lines 265-277): `User.findByIdAndDelete`
immediately — there is no last-admin guard of any kind. -/
def deleteUserAlt (users : List User) (id : Nat) :
    List User × Except HttpError Unit :=
  match users.find? (fun u => u.id == id) with
  | none => (users, .error ⟨404, "Utilisateur non trouvé"⟩)
  | some _ => (users.filter (fun v => !(v.id == id)), .ok ())

/-- `GET /api/medical-records/attachment/:filename` (server.js lines
539-555): after the auth middleware, the handler only checks that the
file exists under `uploads/` and streams it; no medical record and no
ownership information is consulted. -/
def downloadAttachment (db : DB) (t : Token) (filename : String) :
    Except HttpError (List Nat) :=
  match auth db.users t with
  | .error e => .error e
  | .ok _ =>
      match db.uploads.find? (fun f => f.name == filename) with
      | none => .error ⟨404, "Fichier non trouvé"⟩
      | some f => .ok f.bytes

/-- JavaScript `Number(s)` restricted to the strings that matter for the
hour field: the empty string converts to 0, a digit string to its value,
anything else to NaN (`none`). -/
def jsNumber (s : String) : Option Nat :=
  match s.toList with
  | [] => some 0
  | l => if l.all Char.isDigit then
           some (l.foldl (fun n c => 10 * n + (c.toNat - 48)) 0)
         else none

/-- First component of `formData.heure.split(':')`: the characters before
the first colon (the whole string when no colon occurs). -/
def hourField (heure : String) : String :=
  String.mk (heure.toList.takeWhile (fun c => c != ':'))

/-- The client-side window check of `handleSubmit` in
`src/src/components/Appointments.tsx` (lines 119-127):
`const [hours] = formData.heure.split(':').map(Number);
if (hours < 8 || hours >= 18) { setTimeError(...); return; }`.
Returns `true` when the submission goes through (note that a NaN hour
makes both comparisons false, so it passes). -/
def clientHourCheck (heure : String) : Bool :=
  match jsNumber (hourField heure) with
  | some h => !(h < 8 || 18 ≤ h)
  | none => true

/-- The error banner the form sets when the window check fails. -/
def hourWindowMsg : String :=
  "Les rendez-vous sont possibles uniquement entre 8h et 18h"

/-- The appointment-creation flow as the application performs it: the
form handler validates the hour window, and only then issues
`POST /api/appointments`, which stamps the owner and saves. -/
def createAppointmentFlow (caller newId : Nat) (b : AppointmentBody) :
    Except HttpError Appointment :=
  if clientHourCheck (b.heure.getD "") then createAppointment caller newId b
  else .error ⟨0, hourWindowMsg⟩

/-! Concrete fixtures used to exercise the handler embeddings. -/

/-- The seeded administrator account of `createInitialAdmin`. -/
def adminU : User := ⟨0, "admin@example.com", "1234", "Admin", "User", Role.admin⟩

/-- A second administrator account. -/
def adminV : User := ⟨3, "root@example.com", "abcd", "Root", "User", Role.admin⟩

/-- Practitioner A. -/
def drA : User := ⟨1, "alice@clinic.fr", "pw1", "A", "Alice", Role.medecin⟩

/-- Practitioner B. -/
def drB : User := ⟨2, "bob@clinic.fr", "pw2", "B", "Bob", Role.medecin⟩

/-- A patient owned by practitioner A (doctor = 1). -/
def patA : Patient :=
  ⟨10, some "Dupont", some "Jean", some "1980-01-01", some "0612345678",
   some "jean@x.fr", 1⟩

/-- An appointment of practitioner A for that patient. -/
def appA : Appointment := ⟨20, 10, 100, "09:00", "Consultation", 1⟩

/-- An attachment of the medical record below. -/
def attA : Attachment := ⟨"123-9.pdf", "scan.pdf", "application/pdf", 1000, 50⟩

/-- A medical record of practitioner A for patient 10. -/
def recA : MedicalRecord := ⟨30, 10, 1, 200, "Grippe", "Repos", none, [attA]⟩

/-- The stored bytes of the attachment file in `uploads/`. -/
def fileA : StoredFile := ⟨"123-9.pdf", [37, 80, 68, 70]⟩

/-- A database state holding all the fixtures. -/
def dbW : DB := ⟨[adminU, drA, drB, adminV], [patA], [appA], [recA], [fileA]⟩

/-- A full patient body that also tries to inject `doctor: 99`. -/
def pbFull : PatientBody :=
  ⟨some "Dupont", some "Jean", some "1980-01-01", some "0612345678",
   some "jean@x.fr", some 99⟩

/-- A full appointment body that also tries to inject `doctor: 99`. -/
def abFull : AppointmentBody :=
  ⟨some 10, some 100, some "09:00", some "Consultation", some 99⟩

/-- A full medical-record body that tries to inject `patientId` and
`doctor`. -/
def rbFull : RecordBody := ⟨some 200, some "Grippe", some "Repos", none, some 99, some 99⟩

/-- A file as multer hands it to the handler. -/
def ufA : UploadedFile := ⟨"456-7.png", "photo.png", "image/png", 2000⟩

/-- The patient stored by `createPatient 1 40 pbFull`. -/
def pCreated : Patient :=
  ⟨40, some "Dupont", some "Jean", some "1980-01-01", some "0612345678",
   some "jean@x.fr", 1⟩

/-- The appointment stored by `createAppointment 1 41 abFull`. -/
def aCreated : Appointment := ⟨41, 10, 100, "09:00", "Consultation", 1⟩

/-- The record stored by `createMedicalRecord dbW 1 10 42 77 rbFull [ufA]`. -/
def rCreated : MedicalRecord :=
  ⟨42, 10, 1, 200, "Grippe", "Repos", none,
   [⟨"456-7.png", "photo.png", "image/png", 2000, 77⟩]⟩

/-- Appointment bodies around the clinic window boundaries. -/
def ab0759 : AppointmentBody :=
  ⟨some 10, some 100, some "07:59", some "Consultation", none⟩

/-- Appointment body at the upper boundary (rejected). -/
def ab1800 : AppointmentBody :=
  ⟨some 10, some 100, some "18:00", some "Consultation", none⟩

/-- Appointment body at the lower boundary (accepted). -/
def ab0800 : AppointmentBody :=
  ⟨some 10, some 100, some "08:00", some "Consultation", none⟩

/-- Appointment body just below the upper boundary (accepted). -/
def ab1759 : AppointmentBody :=
  ⟨some 10, some 100, some "17:59", some "Consultation", none⟩

/-- A partial patient-update body: only the name is supplied. -/
def bPart : PatientBody := ⟨some "Martin", none, none, none, none, none⟩

/-- A full patient-update body with no doctor field, as the edit form
sends it. -/
def bFull : PatientBody :=
  ⟨some "Martin", some "Paul", some "1975-05-05", some "0698765432",
   some "paul@x.fr", none⟩

/-- A partial medical-record update body. -/
def rbW : RecordBody := ⟨none, some "Angine", none, some "suivi", none, none⟩

/-! Helper lemmas about the list operations used by the handlers. -/

lemma mem_insertAsc (x a : Appointment) (l : List Appointment) :
    x ∈ insertAsc a l ↔ x = a ∨ x ∈ l := by
  induction l with
  | nil => simp [insertAsc]
  | cons b l ih =>
      by_cases h : a.date ≤ b.date
      · simp [insertAsc, h]
      · simp only [insertAsc, if_neg h, List.mem_cons, ih]
        tauto

lemma mem_sortAsc (x : Appointment) (l : List Appointment) :
    x ∈ sortAsc l ↔ x ∈ l := by
  induction l with
  | nil => simp [sortAsc]
  | cons a l ih => simp [sortAsc, mem_insertAsc, ih]

lemma mem_insertDesc (x a : MedicalRecord) (l : List MedicalRecord) :
    x ∈ insertDesc a l ↔ x = a ∨ x ∈ l := by
  induction l with
  | nil => simp [insertDesc]
  | cons b l ih =>
      by_cases h : b.date ≤ a.date
      · simp [insertDesc, h]
      · simp only [insertDesc, if_neg h, List.mem_cons, ih]
        tauto

lemma mem_sortDesc (x : MedicalRecord) (l : List MedicalRecord) :
    x ∈ sortDesc l ↔ x ∈ l := by
  induction l with
  | nil => simp [sortDesc]
  | cons a l ih => simp [sortDesc, mem_insertDesc, ih]

lemma find?_map_pred {α : Type} (f : α → α) (pred : α → Bool) (l : List α)
    (h : ∀ q, pred (f q) = pred q) :
    (l.map f).find? pred = (l.find? pred).map f := by
  induction l with
  | nil => rfl
  | cons x l ih =>
      rw [List.map_cons, List.find?_cons, List.find?_cons]
      simp only [h x]
      cases hx : pred x
      · exact ih
      · rfl

lemma find?_key_of_mem {α : Type} (key : α → Nat) (l : List α) (x : α) (i : Nat)
    (hnd : (l.map key).Nodup) (hx : x ∈ l) (hk : key x = i) :
    l.find? (fun v => key v == i) = some x := by
  induction l with
  | nil => cases hx
  | cons w l ih =>
      rw [List.map_cons, List.nodup_cons] at hnd
      rw [List.find?_cons]
      rcases List.mem_cons.mp hx with rfl | hx2
      · simp [hk]
      · have hw : (key w == i) = false := by
          simp only [beq_eq_false_iff_ne, ne_eq]
          intro hcontra
          apply hnd.1
          rw [hcontra, ← hk]
          exact List.mem_map_of_mem key hx2
        simp only [hw]
        exact ih hnd.2 hx2

lemma countAdmins_filter_eq (users : List User) (i : Nat) (u : User)
    (hnd : (users.map User.id).Nodup)
    (hf : users.find? (fun v => v.id == i) = some u) :
    countAdmins (users.filter (fun v => !(v.id == i)))
      + (if u.role == Role.admin then 1 else 0) = countAdmins users := by
  induction users with
  | nil => cases hf
  | cons w l ih =>
      rw [List.map_cons, List.nodup_cons] at hnd
      rw [List.find?_cons] at hf
      by_cases hw : (w.id == i) = true
      · simp only [hw] at hf
        have hu : u = w := (Option.some.inj hf).symm
        have hwid : w.id = i := by simpa using hw
        have hl : l.filter (fun v => !(v.id == i)) = l := by
          apply List.filter_eq_self.mpr
          intro v hv
          simp only [Bool.not_eq_true', beq_eq_false_iff_ne, ne_eq]
          intro hvi
          apply hnd.1
          rw [hwid, ← hvi]
          exact List.mem_map_of_mem User.id hv
        rw [List.filter_cons, if_neg (by simp [hw]), hl, hu]
        simp [countAdmins, List.countP_cons]
      · have hw2 : (w.id == i) = false := by
          cases hb : (w.id == i)
          · rfl
          · exact absurd hb hw
        simp only [hw2] at hf
        rw [List.filter_cons, if_pos (by simp [hw2])]
        have hrec := ih hnd.2 hf
        simp only [countAdmins, List.countP_cons] at hrec ⊢
        omega

/-- C2: every create operation (createPatient, createAppointment,
createMedicalRecord) stamps the stored entity with the authenticated
caller as `doctor`, regardless of any owner field supplied in the request
body. -/
theorem create_ops_stamp_owner (db : DB) (caller newId now pid : Nat)
    (pb : PatientBody) (ab : AppointmentBody) (rb : RecordBody)
    (files : List UploadedFile) (p : Patient) (a : Appointment)
    (r : MedicalRecord) :
    (createPatient caller newId pb = Except.ok p → p.doctor = caller)
    ∧ (createAppointment caller newId ab = Except.ok a → a.doctor = caller)
    ∧ (createMedicalRecord db caller pid newId now rb files = Except.ok r →
        r.doctor = caller) := by
  refine ⟨?_, ?_, ?_⟩ <;> intro h
  · unfold createPatient at h
    split at h <;> (cases h; try rfl)
  · unfold createAppointment at h
    split at h <;> (cases h; try rfl)
  · unfold createMedicalRecord at h
    split at h
    · cases h
    · split at h <;> (cases h; try rfl)

/-- Witness for C2: concrete create calls whose bodies all try to inject
`doctor: 99`, while the caller is user 1; every stored entity carries
doctor 1. -/
theorem create_ops_stamp_owner_witness :
    pCreated.doctor = 1 ∧ aCreated.doctor = 1 ∧ rCreated.doctor = 1 :=
  ⟨(create_ops_stamp_owner dbW 1 40 77 10 pbFull abFull rbFull [ufA]
      pCreated aCreated rCreated).1 rfl,
   (create_ops_stamp_owner dbW 1 41 77 10 pbFull abFull rbFull [ufA]
      pCreated aCreated rCreated).2.1 rfl,
   (create_ops_stamp_owner dbW 1 42 77 10 pbFull abFull rbFull [ufA]
      pCreated aCreated rCreated).2.2 rfl⟩

/-- C6 counterexample: the auth middleware of
`src/src/middleaware/auth.js` never resolves the token to a stored user,
so a syntactically valid, unexpired token whose user id (5) exists in no
user collection is accepted rather than rejected. -/
theorem authLight_accepts_deleted_user :
    authLight (Token.valid 5) = Except.ok 5
    ∧ ([] : List User).find? (fun u => u.id == 5) = none :=
  ⟨rfl, rfl⟩

/-- C6 (amended): the server.js auth middleware fails with 401 exactly
when the bearer token is missing, malformed or expired, or when the user
referenced by a valid token no longer exists; the lightweight middleware
variant skips the user-existence check. -/
theorem auth_fails_iff (users : List User) (t : Token) :
    auth users t = Except.error ⟨401, authFailMsg⟩
      ↔ (t = Token.missing ∨ t = Token.malformed ∨ t = Token.expired
         ∨ ∃ uid, t = Token.valid uid
             ∧ users.find? (fun u => u.id == uid) = none) := by
  cases t with
  | missing => simp [auth]
  | malformed => simp [auth]
  | expired => simp [auth]
  | valid uid =>
      cases hf : users.find? (fun u => u.id == uid) with
      | none =>
          constructor
          · intro _
            exact Or.inr (Or.inr (Or.inr ⟨uid, rfl, hf⟩))
          · intro _
            simp [auth, hf]
      | some u =>
          constructor
          · intro hcontra
            simp [auth, hf] at hcontra
          · intro hr
            rcases hr with h | h | h | ⟨uid2, heq, hnone⟩
            · exact Token.noConfusion h
            · exact Token.noConfusion h
            · exact Token.noConfusion h
            · cases heq
              rw [hf] at hnone
              exact Option.noConfusion hnone

/-- Witness for C6 (amended): a valid token for deleted user 2 is
rejected by the server.js middleware when only user 1 exists. -/
theorem auth_fails_iff_witness :
    auth [drA] (Token.valid 2) = Except.error ⟨401, authFailMsg⟩ :=
  (auth_fails_iff [drA] (Token.valid 2)).mpr
    (Or.inr (Or.inr (Or.inr ⟨2, rfl, by decide⟩)))

/-- C7: a login with a correct email and wrong password and a login with
an unknown email produce the identical 401 response body
("Email ou mot de passe incorrect"). -/
theorem login_indistinguishable (users : List User) (e1 p1 e2 p2 : String)
    (u : User) (he1 : e1 ≠ "") (hp1 : p1 ≠ "") (he2 : e2 ≠ "") (hp2 : p2 ≠ "")
    (hfind : users.find? (fun v => v.email == e1) = some u)
    (hpw : u.password ≠ p1)
    (hmiss : users.find? (fun v => v.email == e2) = none) :
    login users (some e1) (some p1) = Except.error ⟨401, badCredMsg⟩
    ∧ login users (some e2) (some p2) = Except.error ⟨401, badCredMsg⟩ := by
  constructor
  · have ht : (truthy (some e1) && truthy (some p1)) = true := by
      simp [truthy, he1, hp1]
    simp [login, ht, hfind, hpw]
  · have ht : (truthy (some e2) && truthy (some p2)) = true := by
      simp [truthy, he2, hp2]
    simp [login, ht, hmiss]

/-- Witness for C7: against the user store holding practitioner A
(email alice@clinic.fr, password pw1), the wrong-password attempt and the
unknown-email attempt return the same error. -/
theorem login_indistinguishable_witness :
    login [drA] (some "alice@clinic.fr") (some "wrong")
        = Except.error ⟨401, badCredMsg⟩
    ∧ login [drA] (some "nobody@clinic.fr") (some "pw1")
        = Except.error ⟨401, badCredMsg⟩ :=
  login_indistinguishable [drA] "alice@clinic.fr" "wrong" "nobody@clinic.fr"
    "pw1" drA (by decide) (by decide) (by decide) (by decide) (by decide)
    (by decide) (by decide)

/-- C9: deletePatient removes only the patient document; the appointment
collection, the medical-record collection and the uploads directory are
untouched (no cascade). -/
theorem deletePatient_no_cascade (db : DB) (caller i : Nat) (p : Patient)
    (h : db.patients.find? (fun q => q.id == i && q.doctor == caller) = some p) :
    (deletePatient db caller i).2 = Except.ok ()
    ∧ (deletePatient db caller i).1.appointments = db.appointments
    ∧ (deletePatient db caller i).1.records = db.records
    ∧ (deletePatient db caller i).1.uploads = db.uploads := by
  simp [deletePatient, h]

/-- Witness for C9: deleting patient 10 (who has an appointment, a
medical record and an uploaded file) succeeds and leaves the other three
stores unchanged. -/
theorem deletePatient_no_cascade_witness :
    (deletePatient dbW 1 10).2 = Except.ok ()
    ∧ (deletePatient dbW 1 10).1.appointments = dbW.appointments
    ∧ (deletePatient dbW 1 10).1.records = dbW.records
    ∧ (deletePatient dbW 1 10).1.uploads = dbW.uploads :=
  deletePatient_no_cascade dbW 1 10 patA (by decide)

/-- C10: the attachment download endpoint is gated only by
authentication: any authenticated caller obtains the bytes of any file
present in `uploads/`, and the result does not depend on the
medical-record collection (hence not on who owns the record referencing
the file). -/
theorem downloadAttachment_ignores_ownership (db : DB) (t : Token) (u : User)
    (f : StoredFile) (hauth : auth db.users t = Except.ok u)
    (hfile : db.uploads.find? (fun g => g.name == f.name) = some f) :
    downloadAttachment db t f.name = Except.ok f.bytes
    ∧ ∀ recs, downloadAttachment { db with records := recs } t f.name
        = Except.ok f.bytes := by
  constructor
  · simp [downloadAttachment, hauth, hfile]
  · intro recs
    simp [downloadAttachment, hauth, hfile]

/-- Witness for C10: practitioner B (user 2) downloads the attachment
file referenced by practitioner A's record (doctor 1). -/
theorem downloadAttachment_ignores_ownership_witness :
    downloadAttachment dbW (Token.valid 2) fileA.name = Except.ok fileA.bytes
    ∧ recA.doctor ≠ 2 :=
  ⟨(downloadAttachment_ignores_ownership dbW (Token.valid 2) drB fileA
      rfl (by decide)).1,
   by decide⟩

/-- C1 counterexample: the standalone medical-record router returns
practitioner A's record (doctor 1) to an authenticated caller B (user 2,
as resolved by its auth middleware), because its query filters on
`patientId` only. -/
theorem listMedicalRecordsRoute_leaks :
    authLight (Token.valid 2) = Except.ok 2
    ∧ recA ∈ listMedicalRecordsRoute dbW 10
    ∧ recA.doctor ≠ 2 := by
  refine ⟨rfl, ?_, by decide⟩
  show recA ∈ sortDesc (dbW.records.filter (fun r => r.patientId == 10))
  decide

/-- C1 (amended): in server.js every entity returned by listPatients,
listAppointments and listMedicalRecords carries the caller as `doctor`;
the standalone MedicalRecord router lacks this filter. -/
theorem ownership_scoped_reads (db : DB) (caller : Nat) :
    (∀ p ∈ listPatients db caller, p.doctor = caller)
    ∧ (∀ x ∈ listAppointments db caller, x.1.doctor = caller)
    ∧ (∀ pid recs, listMedicalRecords db caller pid = Except.ok recs →
        ∀ r ∈ recs, r.doctor = caller) := by
  refine ⟨?_, ?_, ?_⟩
  · intro p hp
    have h := List.mem_filter.mp hp
    simpa using h.2
  · intro x hx
    rcases List.mem_map.mp hx with ⟨a, ha, rfl⟩
    have ha2 := (mem_sortAsc a _).mp ha
    have h := List.mem_filter.mp ha2
    simpa using h.2
  · intro pid recs hrecs r hr
    unfold listMedicalRecords at hrecs
    cases hp : db.patients.find? (fun p => p.id == pid && p.doctor == caller) with
    | none => rw [hp] at hrecs; cases hrecs
    | some q =>
        rw [hp] at hrecs
        cases hrecs
        have hr2 := (mem_sortDesc r _).mp hr
        have h := List.mem_filter.mp hr2
        have h3 := h.2
        simp only [Bool.and_eq_true, beq_iff_eq] at h3
        exact h3.2

/-- Witness for C1 (amended): on the fixture database, caller 1 receives
only entities with doctor 1 from each of the three server.js reads. -/
theorem ownership_scoped_reads_witness :
    patA.doctor = 1 ∧ appA.doctor = 1 ∧ recA.doctor = 1 :=
  ⟨(ownership_scoped_reads dbW 1).1 patA (by decide),
   (ownership_scoped_reads dbW 1).2.1 (appA, some patA) (by decide),
   (ownership_scoped_reads dbW 1).2.2 10 [recA] rfl recA (by decide)⟩

/-- C3: the appointment-creation flow (client window check in
Appointments.tsx followed by the server POST) rejects with the
window-validation error exactly when the parsed hour lies outside [8,18),
and otherwise creates the appointment for an otherwise valid body. -/
theorem createAppointment_hour_window (caller newId : Nat)
    (b : AppointmentBody) (s : String) (h : Nat) (hh : b.heure = some s)
    (hp : jsNumber (hourField s) = some h) :
    (createAppointmentFlow caller newId b = Except.error ⟨0, hourWindowMsg⟩
      ↔ (h < 8 ∨ 18 ≤ h))
    ∧ ((8 ≤ h ∧ h < 18) → b.patient.isSome → b.date.isSome →
        b.motif.isSome →
        ∃ a, createAppointmentFlow caller newId b = Except.ok a
          ∧ a.heure = s ∧ a.doctor = caller) := by
  have hc : clientHourCheck (b.heure.getD "") = !(decide (h < 8) || decide (18 ≤ h)) := by
    rw [hh]
    simp only [Option.getD_some]
    unfold clientHourCheck
    rw [hp]
  by_cases hout : h < 8 ∨ 18 ≤ h
  · have hb : clientHourCheck (b.heure.getD "") = false := by
      rw [hc]
      rcases hout with h1 | h1 <;> simp [h1]
    have hflow : createAppointmentFlow caller newId b
        = Except.error ⟨0, hourWindowMsg⟩ := by
      unfold createAppointmentFlow
      rw [hb]
      rfl
    constructor
    · exact ⟨fun _ => hout, fun _ => hflow⟩
    · intro hrange _ _ _
      rcases hout with h1 | h1 <;> omega
  · have h1 : ¬ h < 8 := fun hlt => hout (Or.inl hlt)
    have h2 : ¬ 18 ≤ h := fun hle => hout (Or.inr hle)
    have hb : clientHourCheck (b.heure.getD "") = true := by
      rw [hc]
      simp [h1, h2]
    have hflow : createAppointmentFlow caller newId b
        = createAppointment caller newId b := by
      unfold createAppointmentFlow
      rw [hb]
      rfl
    constructor
    · rw [hflow]
      constructor
      · intro hEq
        exfalso
        unfold createAppointment at hEq
        split at hEq
        · cases hEq
        · simp only [Except.error.injEq, HttpError.mk.injEq] at hEq
          exact absurd hEq.1 (by decide)
      · intro hr
        exact absurd hr hout
    · intro hrange hpat hdate hmot
      rw [hflow]
      rcases Option.isSome_iff_exists.mp hpat with ⟨pt, hpt⟩
      rcases Option.isSome_iff_exists.mp hdate with ⟨d, hd⟩
      rcases Option.isSome_iff_exists.mp hmot with ⟨m, hm⟩
      unfold createAppointment
      rw [hpt, hd, hh, hm]
      exact ⟨⟨newId, pt, d, s, m, caller⟩, rfl, rfl, rfl⟩

/-- Witness for C3: "07:59" and "18:00" are rejected with the window
error; "08:00" and "17:59" are created (owned by the caller). -/
theorem createAppointment_hour_window_witness :
    createAppointmentFlow 1 41 ab0759 = Except.error ⟨0, hourWindowMsg⟩
    ∧ createAppointmentFlow 1 41 ab1800 = Except.error ⟨0, hourWindowMsg⟩
    ∧ (∃ a, createAppointmentFlow 1 41 ab0800 = Except.ok a
        ∧ a.heure = "08:00" ∧ a.doctor = 1)
    ∧ (∃ a, createAppointmentFlow 1 41 ab1759 = Except.ok a
        ∧ a.heure = "17:59" ∧ a.doctor = 1) := by
  refine ⟨?_, ?_, ?_, ?_⟩
  · exact (createAppointment_hour_window 1 41 ab0759 "07:59" 7 rfl
      (by decide)).1.mpr (by decide)
  · exact (createAppointment_hour_window 1 41 ab1800 "18:00" 18 rfl
      (by decide)).1.mpr (by decide)
  · exact (createAppointment_hour_window 1 41 ab0800 "08:00" 8 rfl
      (by decide)).2 (by decide) (by decide) (by decide) (by decide)
  · exact (createAppointment_hour_window 1 41 ab1759 "17:59" 17 rfl
      (by decide)).2 (by decide) (by decide) (by decide) (by decide)

/-- C4 counterexample: in the alternative backend (part_005), deleting
the sole remaining admin account succeeds outright and leaves the store
with zero admins — no last-admin guard exists there. -/
theorem deleteUserAlt_removes_last_admin :
    countAdmins [adminU] = 1
    ∧ (deleteUserAlt [adminU] 0).2 = Except.ok ()
    ∧ countAdmins (deleteUserAlt [adminU] 0).1 = 0 :=
  ⟨rfl, rfl, rfl⟩

/-- C4 (amended): in the server.js backend, deleting an admin while it is
the last one fails with HTTP 400 (message "Impossible de supprimer le
dernier administrateur", not a 409 Conflict) and leaves the store
unchanged; any other delete of an existing user succeeds; consequently a
store that has at least one admin still has one after the call. The
part_005 backend has no such guard. -/
theorem deleteUser_last_admin_guard (users : List User) (i : Nat) (u : User)
    (hnd : (users.map User.id).Nodup)
    (hf : users.find? (fun v => v.id == i) = some u) :
    ((u.role = Role.admin ∧ countAdmins users ≤ 1) →
        deleteUser users i =
          (users, Except.error
            ⟨400, "Impossible de supprimer le dernier administrateur"⟩))
    ∧ ((u.role ≠ Role.admin ∨ 2 ≤ countAdmins users) →
        (deleteUser users i).2 = Except.ok ())
    ∧ (1 ≤ countAdmins users → 1 ≤ countAdmins (deleteUser users i).1) := by
  have hcnt := countAdmins_filter_eq users i u hnd hf
  simp only [deleteUser, hf]
  by_cases hguard : (u.role == Role.admin && decide (countAdmins users ≤ 1)) = true
  · rw [if_pos hguard]
    simp only [Bool.and_eq_true, beq_iff_eq, decide_eq_true_eq] at hguard
    refine ⟨fun _ => rfl, ?_, ?_⟩
    · intro hcase
      rcases hcase with hne | hge
      · exact absurd hguard.1 hne
      · exact absurd hguard.2 (by omega)
    · intro hone
      simpa using hone
  · rw [if_neg hguard]
    simp only [Bool.and_eq_true, beq_iff_eq, decide_eq_true_eq, not_and_or] at hguard
    refine ⟨?_, fun _ => rfl, ?_⟩
    · intro hcase
      rcases hguard with hg | hg
      · exact absurd hcase.1 hg
      · exact absurd hcase.2 hg
    · intro hone
      have hite : (if u.role == Role.admin then 1 else 0) ≤ 1 := by
        split <;> omega
      rcases hguard with hg | hg
      · have hz : (if u.role == Role.admin then 1 else 0) = 0 := by
          have : (u.role == Role.admin) = false := by
            cases hb : (u.role == Role.admin)
            · rfl
            · exact absurd (by simpa using hb) hg
          simp [this]
        simp only []
        omega
      · have h2 : 2 ≤ countAdmins users := by omega
        simp only []
        omega

/-- Witness for C4 (amended): deleting admin 0 when it is the only admin
fails with the 400 guard; deleting admin 0 when admin 3 also exists
succeeds and an admin remains. -/
theorem deleteUser_last_admin_guard_witness :
    deleteUser [adminU, drA] 0 =
      ([adminU, drA], Except.error
        ⟨400, "Impossible de supprimer le dernier administrateur"⟩)
    ∧ (deleteUser [adminU, drA, drB, adminV] 0).2 = Except.ok ()
    ∧ 1 ≤ countAdmins (deleteUser [adminU, drA, drB, adminV] 0).1 :=
  ⟨(deleteUser_last_admin_guard [adminU, drA] 0 adminU (by decide)
      (by decide)).1 ⟨rfl, by decide⟩,
   (deleteUser_last_admin_guard [adminU, drA, drB, adminV] 0 adminU
      (by decide) (by decide)).2.1 (Or.inr (by decide)),
   (deleteUser_last_admin_guard [adminU, drA, drB, adminV] 0 adminU
      (by decide) (by decide)).2.2 (by decide)⟩

/-- C5: updateMedicalRecord returns the record whose attachment list is
the existing list with the new files appended, so its length is the sum
of the two — nothing is replaced or removed. -/
theorem updateMedicalRecord_appends_attachments (db : DB)
    (caller i now : Nat) (b : RecordBody) (files : List UploadedFile)
    (r : MedicalRecord)
    (hnd : (db.records.map MedicalRecord.id).Nodup)
    (h1 : db.records.find? (fun v => v.id == i && v.doctor == caller) = some r) :
    (updateMedicalRecord db caller i now b files).2
        = Except.ok (applyRecordBody r b (files.map (toAttachment now)))
    ∧ (applyRecordBody r b (files.map (toAttachment now))).attachments
        = r.attachments ++ files.map (toAttachment now)
    ∧ (applyRecordBody r b (files.map (toAttachment now))).attachments.length
        = r.attachments.length + files.length := by
  have hkey : r.id = i := by
    have h2 := List.find?_some h1
    simp only [Bool.and_eq_true, beq_iff_eq] at h2
    exact h2.1
  have hmem : r ∈ db.records := List.mem_of_find?_eq_some h1
  have hid : db.records.find? (fun v => v.id == i) = some r :=
    find?_key_of_mem MedicalRecord.id db.records r i hnd hmem hkey
  have hpred : ∀ q : MedicalRecord,
      ((if q.id == i
          then applyRecordBody q b (files.map (toAttachment now))
          else q).id == i) = (q.id == i) := by
    intro q
    by_cases hq : (q.id == i) = true
    · simp [hq, applyRecordBody]
    · simp [hq]
  have hupd : (db.records.map (fun v =>
        if v.id == i then applyRecordBody v b (files.map (toAttachment now))
        else v)).find? (fun v => v.id == i)
      = some (applyRecordBody r b (files.map (toAttachment now))) := by
    rw [find?_map_pred _ _ _ hpred, hid, Option.map_some']
    simp [hkey]
  refine ⟨?_, rfl, by simp [applyRecordBody]⟩
  simp only [updateMedicalRecord, h1]
  rw [hupd]

/-- Witness for C5: updating record 30 (one existing attachment) with one
new file yields two attachments, the old one still in front. -/
theorem updateMedicalRecord_appends_attachments_witness :
    (updateMedicalRecord dbW 1 30 77 rbW [ufA]).2
        = Except.ok (applyRecordBody recA rbW ([ufA].map (toAttachment 77)))
    ∧ (applyRecordBody recA rbW ([ufA].map (toAttachment 77))).attachments.length
        = recA.attachments.length + 1 :=
  ⟨(updateMedicalRecord_appends_attachments dbW 1 30 77 rbW [ufA] recA
      (by decide) (by decide)).1,
   (updateMedicalRecord_appends_attachments dbW 1 30 77 rbW [ufA] recA
      (by decide) (by decide)).2.2⟩

/-- C8: the two backend variants of updatePatient: the server.js `$set`
variant keeps every field omitted from the body and overwrites supplied
ones, while the part_001 `replaceOne` variant blanks omitted fields; for
a body supplying every demographic field (and no doctor field) the two
produce the same stored patient. -/
theorem updatePatient_variants (db : DB) (caller i : Nat) (b : PatientBody)
    (p : Patient)
    (hnd : (db.patients.map Patient.id).Nodup)
    (h1 : db.patients.find? (fun v => v.id == i && v.doctor == caller) = some p) :
    (updatePatient db caller i b).2 = Except.ok (applySet p b)
    ∧ (updatePatientReplace db caller i b).2
        = Except.ok (applyReplace i caller b)
    ∧ (b.nom = none →
        (applySet p b).nom = p.nom ∧ (applyReplace i caller b).nom = none)
    ∧ (b.prenom = none →
        (applySet p b).prenom = p.prenom
        ∧ (applyReplace i caller b).prenom = none)
    ∧ (b.dateNaissance = none →
        (applySet p b).dateNaissance = p.dateNaissance
        ∧ (applyReplace i caller b).dateNaissance = none)
    ∧ (b.telephone = none →
        (applySet p b).telephone = p.telephone
        ∧ (applyReplace i caller b).telephone = none)
    ∧ (b.email = none →
        (applySet p b).email = p.email
        ∧ (applyReplace i caller b).email = none)
    ∧ ((b.nom.isSome ∧ b.prenom.isSome ∧ b.dateNaissance.isSome
        ∧ b.telephone.isSome ∧ b.email.isSome ∧ b.doctor = none) →
        applySet p b = applyReplace i caller b) := by
  have hkey : p.id = i ∧ p.doctor = caller := by
    have h2 := List.find?_some h1
    simp only [Bool.and_eq_true, beq_iff_eq] at h2
    exact h2
  have hmem : p ∈ db.patients := List.mem_of_find?_eq_some h1
  have hid : db.patients.find? (fun v => v.id == i) = some p :=
    find?_key_of_mem Patient.id db.patients p i hnd hmem hkey.1
  have hpredS : ∀ q : Patient,
      ((if q.id == i then applySet q b else q).id == i) = (q.id == i) := by
    intro q
    by_cases hq : (q.id == i) = true
    · simp [hq, applySet]
    · simp [hq]
  have hpredR : ∀ q : Patient,
      ((if q.id == i then applyReplace i caller b else q).id == i)
        = (q.id == i) := by
    intro q
    by_cases hq : (q.id == i) = true
    · simp [hq, applyReplace]
    · simp [hq]
  refine ⟨?_, ?_, ?_, ?_, ?_, ?_, ?_, ?_⟩
  · have hupd : (db.patients.map (fun v =>
          if v.id == i then applySet v b else v)).find? (fun v => v.id == i)
        = some (applySet p b) := by
      rw [find?_map_pred _ _ _ hpredS, hid, Option.map_some']
      simp [hkey.1]
    simp only [updatePatient, h1]
    rw [hupd]
  · have hupd : (db.patients.map (fun v =>
          if v.id == i then applyReplace i caller b else v)).find?
            (fun v => v.id == i)
        = some (applyReplace i caller b) := by
      rw [find?_map_pred _ _ _ hpredR, hid, Option.map_some']
      simp [hkey.1]
    simp only [updatePatientReplace, h1]
    rw [hupd]
  · intro hb
    exact ⟨by simp [applySet, setField, hb], by simp [applyReplace, hb]⟩
  · intro hb
    exact ⟨by simp [applySet, setField, hb], by simp [applyReplace, hb]⟩
  · intro hb
    exact ⟨by simp [applySet, setField, hb], by simp [applyReplace, hb]⟩
  · intro hb
    exact ⟨by simp [applySet, setField, hb], by simp [applyReplace, hb]⟩
  · intro hb
    exact ⟨by simp [applySet, setField, hb], by simp [applyReplace, hb]⟩
  · intro hfull
    obtain ⟨hn, hpn, hdn, htl, hem, hdoc⟩ := hfull
    rcases Option.isSome_iff_exists.mp hn with ⟨n, hn2⟩
    rcases Option.isSome_iff_exists.mp hpn with ⟨pn, hpn2⟩
    rcases Option.isSome_iff_exists.mp hdn with ⟨dn, hdn2⟩
    rcases Option.isSome_iff_exists.mp htl with ⟨tl, htl2⟩
    rcases Option.isSome_iff_exists.mp hem with ⟨em, hem2⟩
    simp [applySet, applyReplace, setField, hn2, hpn2, hdn2, htl2, hem2,
      hdoc, hkey.1, hkey.2]

/-- Witness for C8: updating patient 10 with a body supplying only the
name keeps the stored telephone under the `$set` variant and blanks it
under the `replaceOne` variant; with the full body `bFull` both variants
store the same patient. -/
theorem updatePatient_variants_witness :
    (updatePatient dbW 1 10 bPart).2 = Except.ok (applySet patA bPart)
    ∧ (updatePatientReplace dbW 1 10 bPart).2
        = Except.ok (applyReplace 10 1 bPart)
    ∧ (applySet patA bPart).telephone = patA.telephone
    ∧ (applyReplace 10 1 bPart).telephone = none
    ∧ applySet patA bFull = applyReplace 10 1 bFull :=
  ⟨(updatePatient_variants dbW 1 10 bPart patA (by decide) (by decide)).1,
   (updatePatient_variants dbW 1 10 bPart patA (by decide) (by decide)).2.1,
   ((updatePatient_variants dbW 1 10 bPart patA (by decide)
      (by decide)).2.2.2.2.2.1 rfl).1,
   ((updatePatient_variants dbW 1 10 bPart patA (by decide)
      (by decide)).2.2.2.2.2.1 rfl).2,
   (updatePatient_variants dbW 1 10 bFull patA (by decide)
      (by decide)).2.2.2.2.2.2.2 (by decide)⟩

end Clinic
